import Mathlib

/-!
Shallow embedding of the pixwell-js client (src/src/types.ts) and proofs
about its error classification, request execution and screenshot shaping.

The TypeScript client is a thin wrapper over fetch: a constructor that
validates the API key, one internal request executor with a timeout timer,
an error classifier dispatching on the HTTP status, and public operations
that reshape the decoded response. Machine numbers coming out of the
JavaScript parseInt function are modelled by JsNum, which keeps the NaN
case explicit.
-/

/-- Result of the JavaScript parseInt function: either NaN or an integer. -/
inductive JsNum where
  | nan : JsNum
  | int (n : Int) : JsNum
deriving DecidableEq, Repr

/-- Numeric value of a list of decimal digit characters. -/
def digitsVal (cs : List Char) : Nat :=
  cs.foldl (fun a c => a * 10 + (c.toNat - Char.toNat '0')) 0

/-- Model of the JavaScript parseInt(s, 10): skip leading whitespace, read an
optional sign, then the maximal run of leading decimal digits; if that run is
empty the result is NaN, otherwise the signed integer value of the run. -/
def parseIntJS (s : String) : JsNum :=
  let cs := s.data.dropWhile Char.isWhitespace
  let signed : Bool × List Char :=
    match cs with
    | '-' :: rest => (true, rest)
    | '+' :: rest => (false, rest)
    | _ => (false, cs)
  let digs := signed.2.takeWhile Char.isDigit
  if digs.isEmpty then JsNum.nan
  else JsNum.int (if signed.1 then -(digitsVal digs : Int) else (digitsVal digs : Int))

/-- Response headers: an association list of header name and value. -/
abbrev Headers := List (String × String)

/-- ASCII lower-casing of one character. -/
def charLower (c : Char) : Char :=
  if 65 ≤ c.toNat ∧ c.toNat ≤ 90 then Char.ofNat (c.toNat + 32) else c

/-- ASCII lower-casing of a string, character by character. -/
def strLower (s : String) : String :=
  String.mk (s.data.map charLower)

/-- Case-insensitive header lookup, the behaviour of Headers.get in fetch:
returns the value of the first header whose name matches up to case, or none
(null in JavaScript) when no header matches. -/
def headerGet (hs : Headers) (k : String) : Option String :=
  (hs.find? (fun p => strLower p.fst == strLower k)).map Prod.snd

/-- The error field of a structured error body: the optional code and message
extracted from a decoded JSON body of shape error: code, message
(src/src/types.ts line 419). -/
structure ErrorInfo where
  code : Option String
  message : Option String
deriving DecidableEq, Repr

/-- A raised Pixwell SDK error. The TypeScript classes PixwellError,
AuthenticationError, RateLimitError, ValidationError, CaptureError and
NetworkError are flattened into one record; name is the class discriminant,
and the subclass-only properties retryAfter and field are none (undefined)
on the variants that lack them (src/src/types.ts lines 128 to 199). -/
structure PixwellError where
  name : String
  message : String
  code : String
  statusCode : Option Nat
  retryAfter : Option JsNum
  field : Option String
deriving DecidableEq, Repr

/-- Constructor of the base class PixwellError (src/src/types.ts line 128). -/
def PixwellError.base (message code : String) (statusCode : Option Nat) : PixwellError :=
  ⟨"PixwellError", message, code, statusCode, none, none⟩

/-- Constructor of AuthenticationError: code AUTHENTICATION_ERROR, status 401
(src/src/types.ts line 143). -/
def AuthenticationError (message : String) : PixwellError :=
  ⟨"AuthenticationError", message, "AUTHENTICATION_ERROR", some 401, none, none⟩

/-- Constructor of RateLimitError: code RATE_LIMIT_ERROR, status 429, optional
retryAfter number (src/src/types.ts line 154). -/
def RateLimitError (message : String) (retryAfter : Option JsNum) : PixwellError :=
  ⟨"RateLimitError", message, "RATE_LIMIT_ERROR", some 429, retryAfter, none⟩

/-- Constructor of ValidationError: code VALIDATION_ERROR, status 400, optional
offending field name (src/src/types.ts line 168). -/
def ValidationError (message : String) (field : Option String) : PixwellError :=
  ⟨"ValidationError", message, "VALIDATION_ERROR", some 400, none, field⟩

/-- Constructor of CaptureError: code CAPTURE_ERROR, status fixed at 500
(src/src/types.ts line 182). -/
def CaptureError (message : String) : PixwellError :=
  ⟨"CaptureError", message, "CAPTURE_ERROR", some 500, none, none⟩

/-- Constructor of NetworkError: code NETWORK_ERROR, no status code
(src/src/types.ts line 193). -/
def NetworkError (message : String) : PixwellError :=
  ⟨"NetworkError", message, "NETWORK_ERROR", none, none, none⟩

/-- The response.ok predicate of fetch: HTTP status in the range 200 to 299. -/
def statusOk (status : Nat) : Bool :=
  200 ≤ status && status ≤ 299

/-- An HTTP response as the executor sees it: status, headers, the result of
parsing the body as JSON and extracting the error shape (none when the body is
not valid JSON, in which case response.json() throws), the raw body bytes for
binary decoding, and the message of the exception thrown by response.json()
when the body is not valid JSON (environment determined). -/
structure HttpResponse where
  status : Nat
  headers : Headers
  json : Option ErrorInfo
  bytes : List Nat
  jsonErrMsg : String
deriving DecidableEq, Repr

/-- A value thrown inside the try block of Pixwell.request: a typed Pixwell
error (instanceof PixwellError), a generic JavaScript Error with its name and
message, or a thrown non-Error value. -/
inductive Thrown where
  | pixwell (e : PixwellError) : Thrown
  | jsError (name message : String) : Thrown
  | other : Thrown
deriving DecidableEq, Repr

/-- Outcome of the fetch call: it resolved with a response, or it rejected
with a thrown value (network failure, or AbortError from the timeout timer). -/
inductive FetchOutcome where
  | resp (r : HttpResponse) : FetchOutcome
  | reject (t : Thrown) : FetchOutcome
deriving DecidableEq, Repr

/-- The responseType option of Pixwell.request (src/src/types.ts line 364). -/
inductive ResponseType where
  | json : ResponseType
  | arrayBuffer : ResponseType
deriving DecidableEq, Repr

/-- Decoded payload of a successful request: raw bytes (arrayBuffer mode) or
the structured body (json mode). -/
inductive RespData where
  | bytes (data : List Nat) : RespData
  | jsonVal (v : ErrorInfo) : RespData
deriving DecidableEq, Repr

/-- Models the unchecked TypeScript cast of the decoded payload to the
expected type: in arrayBuffer mode the payload is always bytes, so the
jsonVal branch is unreachable there. -/
def RespData.asBytes : RespData → List Nat
  | RespData.bytes data => data
  | RespData.jsonVal _ => []

/-- Result of Pixwell.request together with the final state of the timeout
timer: timerCleared is true exactly when clearTimeout ran on the path taken. -/
structure RequestResult where
  result : Except PixwellError (RespData × Headers)
  timerCleared : Bool
deriving Repr

/-- The error classifier Pixwell.handleError (src/src/types.ts lines 418 to
450). errorData is the error field extracted from the JSON body, none when
the body was not decodable (the decode failure is swallowed and defaults
apply). Message and code fall back to a generic status string and
UNKNOWN_ERROR; dispatch is on the HTTP status. The retry-after header is
parsed only when present and non-empty (JavaScript truthiness of the string
returned by headers.get), and parseInt of a non-numeric string is NaN. -/
def Pixwell.handleError (status : Nat) (headers : Headers) (errorData : Option ErrorInfo) :
    PixwellError :=
  let message := (errorData.bind ErrorInfo.message).getD
    ("Request failed with status " ++ toString status)
  let code := (errorData.bind ErrorInfo.code).getD "UNKNOWN_ERROR"
  if status = 401 then
    AuthenticationError message
  else if status = 429 then
    let retryAfter :=
      match headerGet headers "retry-after" with
      | some s => if s = "" then none else some (parseIntJS s)
      | none => none
    RateLimitError message retryAfter
  else if status = 400 then
    ValidationError message none
  else if status = 500 ∨ status = 502 ∨ status = 503 then
    CaptureError message
  else
    PixwellError.base message code (some status)

/-- The catch block of Pixwell.request (src/src/types.ts lines 397 to 412),
after clearTimeout: an error that is instanceof PixwellError is rethrown
unchanged; an Error named AbortError becomes a NetworkError naming the
configured timeout; any other Error is wrapped as a NetworkError with its
message; a non-Error thrown value becomes the unknown NetworkError. -/
def Pixwell.catchThrown (timeout : Nat) : Thrown → PixwellError
  | Thrown.pixwell e => e
  | Thrown.jsError name message =>
      if name = "AbortError" then
        NetworkError ("Request timed out after " ++ toString timeout ++ "ms")
      else
        NetworkError message
  | Thrown.other => NetworkError "Unknown error occurred"

/-- The request executor Pixwell.request (src/src/types.ts lines 359 to 413),
as a function of the fetch outcome. A timer is started before the call; every
branch records whether clearTimeout ran on its path: line 383 clears it as
soon as fetch resolves (before the status check and body decode), and the
catch block at line 398 clears it when anything in the try block throws. -/
def Pixwell.request (timeout : Nat) (rt : ResponseType) (outcome : FetchOutcome) :
    RequestResult :=
  match outcome with
  | FetchOutcome.resp r =>
    if statusOk r.status then
      match rt with
      | ResponseType.arrayBuffer =>
          ⟨Except.ok (RespData.bytes r.bytes, r.headers), true⟩
      | ResponseType.json =>
        match r.json with
        | some j => ⟨Except.ok (RespData.jsonVal j, r.headers), true⟩
        | none =>
            ⟨Except.error (Pixwell.catchThrown timeout
              (Thrown.jsError "SyntaxError" r.jsonErrMsg)), true⟩
    else
      ⟨Except.error (Pixwell.catchThrown timeout
        (Thrown.pixwell (Pixwell.handleError r.status r.headers r.json))), true⟩
  | FetchOutcome.reject t =>
      ⟨Except.error (Pixwell.catchThrown timeout t), true⟩

/-- The client configuration passed to the constructor
(src/src/types.ts line 117); a missing apiKey is the empty string. -/
structure PixwellClientOptions where
  apiKey : String
  baseUrl : Option String
  timeout : Option Nat
deriving DecidableEq, Repr

/-- The immutable state a constructed client holds (src/src/types.ts
lines 243 to 245). -/
structure Pixwell where
  apiKey : String
  baseUrl : String
  timeout : Nat
deriving DecidableEq, Repr

/-- Default base URL (src/src/types.ts line 217). -/
def DEFAULT_BASE_URL : String := "https://api.pixwell.dev"

/-- Default timeout in milliseconds (src/src/types.ts line 218). -/
def DEFAULT_TIMEOUT : Nat := 60000

/-- Removal of one trailing slash, the replace of /\/$/ with the empty
string (src/src/types.ts line 253). -/
def stripTrailingSlash (s : String) : String :=
  if s.endsWith "/" then s.dropRight 1 else s

/-- The constructor of the Pixwell class (src/src/types.ts lines 247 to 255).
It is a pure function of the options: it takes no FetchOutcome and involves no
transport, so construction performs no network activity. A falsy apiKey (the
empty string, covering a missing key) raises a ValidationError before
anything else. -/
def Pixwell.make (options : PixwellClientOptions) : Except PixwellError Pixwell :=
  if options.apiKey = "" then
    Except.error (ValidationError "API key is required" (some "apiKey"))
  else
    Except.ok ⟨options.apiKey,
      stripTrailingSlash (options.baseUrl.getD DEFAULT_BASE_URL),
      options.timeout.getD DEFAULT_TIMEOUT⟩

/-- The screenshot result shape (src/src/types.ts lines 42 to 53); durationMs
is a JavaScript number, hence JsNum. -/
structure ScreenshotResponse where
  data : List Nat
  contentType : String
  size : Nat
  durationMs : JsNum
  cached : Bool
deriving DecidableEq, Repr

/-- The screenshot operation (src/src/types.ts lines 278 to 299): runs the
request in arrayBuffer mode and shapes the result from the payload bytes and
the content-type, x-duration-ms and x-cache response headers. -/
def Pixwell.screenshot (timeout : Nat) (outcome : FetchOutcome) :
    Except PixwellError ScreenshotResponse :=
  match (Pixwell.request timeout ResponseType.arrayBuffer outcome).result with
  | Except.error e => Except.error e
  | Except.ok (d, headers) =>
      Except.ok ⟨d.asBytes,
        (headerGet headers "content-type").getD "application/octet-stream",
        d.asBytes.length,
        parseIntJS ((headerGet headers "x-duration-ms").getD "0"),
        headerGet headers "x-cache" == some "HIT"⟩

/-! Concrete fixtures used by witnesses and counterexamples. -/

/-- Headers of an example 404 response. -/
def exHeaders404 : Headers := [("content-type", "application/json")]

/-- Decoded error body of an example 404 response. -/
def exBody404 : Option ErrorInfo := some ⟨some "NOT_FOUND", some "Page not found"⟩

/-- An example 404 response with a structured error body. -/
def exResp404 : HttpResponse := ⟨404, exHeaders404, exBody404, [], "bad json"⟩

/-- An example successful binary response with all three headers set. -/
def exResp200 : HttpResponse :=
  ⟨200, [("content-type", "image/png"), ("x-duration-ms", "512"), ("x-cache", "HIT")],
    none, [1, 2, 3], "bad json"⟩

/-- An example successful binary response whose x-duration-ms header is not
numeric. -/
def exRespDurAbc : HttpResponse :=
  ⟨200, [("content-type", "image/png"), ("x-duration-ms", "abc"), ("x-cache", "HIT")],
    none, [1, 2, 3], "bad json"⟩

/-- An example 503 response with an undecodable body. -/
def exResp503 : HttpResponse := ⟨503, [], none, [], "bad json"⟩

/-- C1: for every response with a non-2xx status the request executor returns
no value and raises the classified error: an authentication error for 401, a
rate-limit error for 429, a validation error for 400, a capture error for
500, 502 and 503, and for any other non-2xx status the generic base error
carrying the decoded code (default UNKNOWN_ERROR) and the numeric status. -/
theorem requestNonOkClassifies (timeout : Nat) (rt : ResponseType) (r : HttpResponse)
    (h : statusOk r.status = false) :
    (Pixwell.request timeout rt (FetchOutcome.resp r)).result
      = Except.error (Pixwell.handleError r.status r.headers r.json) ∧
    (r.status = 401 →
      (Pixwell.handleError r.status r.headers r.json).name = "AuthenticationError") ∧
    (r.status = 429 →
      (Pixwell.handleError r.status r.headers r.json).name = "RateLimitError") ∧
    (r.status = 400 →
      (Pixwell.handleError r.status r.headers r.json).name = "ValidationError") ∧
    (r.status = 500 ∨ r.status = 502 ∨ r.status = 503 →
      (Pixwell.handleError r.status r.headers r.json).name = "CaptureError") ∧
    (r.status ≠ 401 → r.status ≠ 429 → r.status ≠ 400 → r.status ≠ 500 → r.status ≠ 502 →
      r.status ≠ 503 →
      (Pixwell.handleError r.status r.headers r.json).name = "PixwellError" ∧
      (Pixwell.handleError r.status r.headers r.json).code
        = (r.json.bind ErrorInfo.code).getD "UNKNOWN_ERROR" ∧
      (Pixwell.handleError r.status r.headers r.json).statusCode = some r.status) := by
  refine ⟨?_, ?_, ?_, ?_, ?_, ?_⟩
  · cases rt <;> simp [Pixwell.request, Pixwell.catchThrown, h]
  · intro h1; simp [Pixwell.handleError, h1, AuthenticationError]
  · intro h1; simp [Pixwell.handleError, h1, RateLimitError]
  · intro h1; simp [Pixwell.handleError, h1, ValidationError]
  · rintro (h1 | h1 | h1) <;> simp [Pixwell.handleError, h1, CaptureError]
  · intro h1 h2 h3 h4 h5 h6
    simp [Pixwell.handleError, h1, h2, h3, h4, h5, h6, PixwellError.base]

/-- Witness for C1 at a concrete 404 response. -/
theorem requestNonOkClassifies_witness :
    statusOk exResp404.status = false ∧
    (Pixwell.request 60000 ResponseType.json (FetchOutcome.resp exResp404)).result
      = Except.error (Pixwell.handleError exResp404.status exResp404.headers exResp404.json) :=
  ⟨by decide, (requestNonOkClassifies 60000 ResponseType.json exResp404 (by decide)).1⟩

/-- C2: constructing the client with a missing or empty credential (a falsy
apiKey, modelled as the empty string) raises a validation error; the
constructor is a pure function of the options with no transport input, so no
network activity is possible during construction. -/
theorem constructorRequiresApiKey (options : PixwellClientOptions)
    (h : options.apiKey = "") :
    Pixwell.make options
      = Except.error (ValidationError "API key is required" (some "apiKey")) ∧
    (ValidationError "API key is required" (some "apiKey")).name = "ValidationError" ∧
    (ValidationError "API key is required" (some "apiKey")).code = "VALIDATION_ERROR" ∧
    (ValidationError "API key is required" (some "apiKey")).statusCode = some 400 ∧
    (ValidationError "API key is required" (some "apiKey")).field = some "apiKey" :=
  ⟨by simp [Pixwell.make, h], rfl, rfl, rfl, rfl⟩

/-- Witness for C2 at concrete options with an empty credential. -/
theorem constructorRequiresApiKey_witness :
    Pixwell.make ⟨"", none, none⟩
      = Except.error (ValidationError "API key is required" (some "apiKey")) :=
  (constructorRequiresApiKey ⟨"", none, none⟩ rfl).1

/-- C3 counterexample: on a successful response whose x-duration-ms header is
the non-numeric string abc, the screenshot result carries durationMs NaN, not
the 0 the claim states for a non-numeric header. -/
theorem durationNonNumericCounterexample :
    Pixwell.screenshot 60000 (FetchOutcome.resp exRespDurAbc)
      = Except.ok ⟨[1, 2, 3], "image/png", 3, JsNum.nan, true⟩ ∧
    JsNum.nan ≠ JsNum.int 0 := ⟨rfl, by decide⟩

/-- C3 (amended): for every successful capture call the result has
contentType equal to the content-type header (default
application/octet-stream when absent), size equal to the byte length of the
payload, durationMs equal to the JavaScript parseInt of the x-duration-ms
header with the string 0 substituted when the header is absent — so 0 when
absent but NaN when present and non-numeric — and cached true exactly when
the x-cache header is exactly HIT. -/
theorem screenshotResultShaping (timeout : Nat) (r : HttpResponse)
    (h : statusOk r.status = true) :
    Pixwell.screenshot timeout (FetchOutcome.resp r)
      = Except.ok ⟨r.bytes,
          (headerGet r.headers "content-type").getD "application/octet-stream",
          r.bytes.length,
          parseIntJS ((headerGet r.headers "x-duration-ms").getD "0"),
          headerGet r.headers "x-cache" == some "HIT"⟩ ∧
    (headerGet r.headers "x-duration-ms" = none →
      parseIntJS ((headerGet r.headers "x-duration-ms").getD "0") = JsNum.int 0) := by
  constructor
  · simp [Pixwell.screenshot, Pixwell.request, h, RespData.asBytes]
  · intro h1; rw [h1]; decide

/-- Witness for C3 (amended) at a concrete successful binary response. -/
theorem screenshotResultShaping_witness :
    Pixwell.screenshot 60000 (FetchOutcome.resp exResp200)
      = Except.ok ⟨exResp200.bytes,
          (headerGet exResp200.headers "content-type").getD "application/octet-stream",
          exResp200.bytes.length,
          parseIntJS ((headerGet exResp200.headers "x-duration-ms").getD "0"),
          headerGet exResp200.headers "x-cache" == some "HIT"⟩ :=
  (screenshotResultShaping 60000 exResp200 (by decide)).1

/-- C4 counterexample: with status 429 and the non-numeric header value soon,
the raised rate-limit error carries retryAfter NaN — a present value — where
the claim states it is absent. -/
theorem retryAfterNonNumericCounterexample :
    (Pixwell.handleError 429 [("retry-after", "soon")] none).retryAfter
      = some JsNum.nan ∧
    some JsNum.nan ≠ (none : Option JsNum) := ⟨by decide, by decide⟩

/-- C4 (amended): for every 429 response the raised rate-limit error carries
retryAfter equal to the JavaScript parseInt of the retry-after header
whenever that header is present and non-empty — hence NaN when it is
non-numeric — and carries no retryAfter only when the header is absent or the
empty string. -/
theorem retryAfterParsing (headers : Headers) (errorData : Option ErrorInfo) :
    (headerGet headers "retry-after" = none →
      (Pixwell.handleError 429 headers errorData).retryAfter = none) ∧
    (∀ s : String, headerGet headers "retry-after" = some s → ¬ s = "" →
      (Pixwell.handleError 429 headers errorData).retryAfter = some (parseIntJS s)) ∧
    (∀ s : String, headerGet headers "retry-after" = some s → s = "" →
      (Pixwell.handleError 429 headers errorData).retryAfter = none) := by
  refine ⟨?_, ?_, ?_⟩
  · intro h1; simp [Pixwell.handleError, RateLimitError, h1]
  · intro s h1 h2; simp [Pixwell.handleError, RateLimitError, h1, h2]
  · intro s h1 h2; simp [Pixwell.handleError, RateLimitError, h1, h2]

/-- Witness for C4 (amended) at a concrete numeric retry-after header. -/
theorem retryAfterParsing_witness :
    (Pixwell.handleError 429 [("retry-after", "30")] none).retryAfter
      = some (parseIntJS "30") ∧
    parseIntJS "30" = JsNum.int 30 :=
  ⟨(retryAfterParsing [("retry-after", "30")] none).2.1 "30" (by decide) (by decide),
   by decide⟩

/-- C5: for every non-2xx response the raised error message is the decoded
structured message when present and otherwise the generic string naming the
numeric status; a body that is not decodable is modelled as errorData none
and simply falls back to the defaults without raising. -/
theorem errorMessageResolution (status : Nat) (headers : Headers)
    (errorData : Option ErrorInfo) (h : statusOk status = false) :
    (Pixwell.handleError status headers errorData).message
      = (errorData.bind ErrorInfo.message).getD
          ("Request failed with status " ++ toString status) := by
  simp only [Pixwell.handleError]
  split_ifs <;> rfl

/-- Witness for C5 at a concrete 404 response with a structured message. -/
theorem errorMessageResolution_witness :
    (Pixwell.handleError 404 exHeaders404 exBody404).message = "Page not found" :=
  (errorMessageResolution 404 exHeaders404 exBody404 (by decide)).trans (by decide)

/-- C6: every typed error raised by the request executor machinery reaches
the caller unchanged: the catch block rethrows any PixwellError as is, so the
classifier error raised for a non-2xx response arrives exactly as built, and
the timeout NetworkError arrives exactly as built; none is re-wrapped by the
generic network-failure handling. -/
theorem typedErrorsPropagateUnchanged (timeout : Nat) (rt : ResponseType) :
    (∀ e : PixwellError, Pixwell.catchThrown timeout (Thrown.pixwell e) = e) ∧
    (∀ r : HttpResponse, statusOk r.status = false →
      (Pixwell.request timeout rt (FetchOutcome.resp r)).result
        = Except.error (Pixwell.handleError r.status r.headers r.json)) ∧
    (∀ msg : String,
      (Pixwell.request timeout rt (FetchOutcome.reject (Thrown.jsError "AbortError" msg))).result
        = Except.error (NetworkError ("Request timed out after " ++ toString timeout ++ "ms"))) := by
  refine ⟨fun e => rfl, fun r h => ?_, fun msg => rfl⟩
  cases rt <;> simp [Pixwell.request, Pixwell.catchThrown, h]

/-- Witness for C6 at a concrete 503 response. -/
theorem typedErrorsPropagateUnchanged_witness :
    (Pixwell.request 60000 ResponseType.arrayBuffer (FetchOutcome.resp exResp503)).result
      = Except.error (Pixwell.handleError exResp503.status exResp503.headers exResp503.json) :=
  (typedErrorsPropagateUnchanged 60000 ResponseType.arrayBuffer).2.1 exResp503 (by decide)

/-- C7: when the in-flight call is aborted by the timeout timer (the fetch
rejects with an AbortError), the call raises a NetworkError whose message
states the configured timeout duration that elapsed. -/
theorem timeoutAbortNetworkError (timeout : Nat) (rt : ResponseType) (msg : String) :
    (Pixwell.request timeout rt (FetchOutcome.reject (Thrown.jsError "AbortError" msg))).result
      = Except.error (NetworkError ("Request timed out after " ++ toString timeout ++ "ms")) ∧
    (NetworkError ("Request timed out after " ++ toString timeout ++ "ms")).name
      = "NetworkError" ∧
    (NetworkError ("Request timed out after " ++ toString timeout ++ "ms")).message
      = "Request timed out after " ++ toString timeout ++ "ms" :=
  ⟨rfl, rfl, rfl⟩

/-- C8: on every exit path of a request — success, non-2xx classification,
body-decode failure, network failure or timeout abort — the timeout timer has
been cleared by the time the call completes. -/
theorem timerClearedOnEveryPath (timeout : Nat) (rt : ResponseType) (outcome : FetchOutcome) :
    (Pixwell.request timeout rt outcome).timerCleared = true := by
  cases outcome with
  | reject t => rfl
  | resp r =>
    cases rt with
    | arrayBuffer => cases h : statusOk r.status <;> simp [Pixwell.request, h]
    | json =>
      cases h : statusOk r.status
      · simp [Pixwell.request, h]
      · cases hj : r.json <;> simp [Pixwell.request, h, hj]

/-- C9: for a failed response with status 502 or 503 the raised capture error
carries statusCode 500, not the actual response status. -/
theorem captureErrorStatusCollapse (headers : Headers) (errorData : Option ErrorInfo)
    (s : Nat) (h : s = 502 ∨ s = 503) :
    (Pixwell.handleError s headers errorData).statusCode = some 500 ∧
    (Pixwell.handleError s headers errorData).statusCode ≠ some s := by
  rcases h with h | h <;> subst h <;>
    exact ⟨by simp [Pixwell.handleError, CaptureError], by simp [Pixwell.handleError, CaptureError]⟩

/-- Witness for C9 at a concrete 502 response. -/
theorem captureErrorStatusCollapse_witness :
    (Pixwell.handleError 502 [] none).statusCode = some 500 :=
  (captureErrorStatusCollapse [] none 502 (Or.inl rfl)).1

/-- C10: for statuses 401, 429, 400, 500, 502 and 503 the code decoded from
the error body is discarded and the raised error carries the fixed code of
its variant; only the generic base error raised for any other non-2xx status
carries the decoded code (default UNKNOWN_ERROR). -/
theorem typedVariantCodeFixed (headers : Headers) (errorData : Option ErrorInfo) :
    (Pixwell.handleError 401 headers errorData).code = "AUTHENTICATION_ERROR" ∧
    (Pixwell.handleError 429 headers errorData).code = "RATE_LIMIT_ERROR" ∧
    (Pixwell.handleError 400 headers errorData).code = "VALIDATION_ERROR" ∧
    (Pixwell.handleError 500 headers errorData).code = "CAPTURE_ERROR" ∧
    (Pixwell.handleError 502 headers errorData).code = "CAPTURE_ERROR" ∧
    (Pixwell.handleError 503 headers errorData).code = "CAPTURE_ERROR" ∧
    (∀ s : Nat, statusOk s = false → s ≠ 401 → s ≠ 429 → s ≠ 400 → s ≠ 500 → s ≠ 502 →
      s ≠ 503 →
      (Pixwell.handleError s headers errorData).code
        = (errorData.bind ErrorInfo.code).getD "UNKNOWN_ERROR") := by
  refine ⟨?_, ?_, ?_, ?_, ?_, ?_, ?_⟩
  · simp [Pixwell.handleError, AuthenticationError]
  · simp [Pixwell.handleError, RateLimitError]
  · simp [Pixwell.handleError, ValidationError]
  · simp [Pixwell.handleError, CaptureError]
  · simp [Pixwell.handleError, CaptureError]
  · simp [Pixwell.handleError, CaptureError]
  · intro s hok h1 h2 h3 h4 h5 h6
    simp [Pixwell.handleError, h1, h2, h3, h4, h5, h6, PixwellError.base]

/-- Witness for C10: the fixed code on a concrete 401 and the decoded code on
a concrete 404. -/
theorem typedVariantCodeFixed_witness :
    (Pixwell.handleError 401 exHeaders404 exBody404).code = "AUTHENTICATION_ERROR" ∧
    (Pixwell.handleError 404 exHeaders404 exBody404).code = "NOT_FOUND" :=
  ⟨(typedVariantCodeFixed exHeaders404 exBody404).1,
   ((typedVariantCodeFixed exHeaders404 exBody404).2.2.2.2.2.2 404 (by decide) (by decide)
      (by decide) (by decide) (by decide) (by decide) (by decide)).trans (by decide)⟩
